import Mathlib

/-!
Shallow embedding of the `expense-tracker-ai` repository, a personal-finance
front end. The interesting logic is the Insights panel
(`src/app/components/Insights.tsx`): it owns a list of insight records, a
loading flag, a last-updated timestamp, and a map (here: list keyed by
`insightId`) of on-demand AI answers. We embed the component state and each
state-mutating operation as pure Lean functions. Asynchronous completions
(the fetch resolving, the answer-generation call resolving) are modelled as
separate state transformers applied at completion time, matching the
single-threaded, event-driven execution model: every mutation is a discrete
step on the shared state.
-/

/-- The closed category set of an insight (`InsightData.type` in the source:
`'warning' | 'info' | 'success' | 'tip'`). -/
inductive InsightType where
  | warning
  | info
  | success
  | tip
deriving DecidableEq, Repr

/-- `InsightData` from `Insights.tsx`: `id`, `type`, `title`, `message`,
optional `action`, optional `confidence`. -/
structure InsightData where
  id : String
  type : InsightType
  title : String
  message : String
  action : Option String := none
  confidence : Option Int := none
deriving DecidableEq, Repr

/-- `AIAnswer` from `Insights.tsx`: `insightId`, `answer`, `isLoading`. -/
structure AIAnswer where
  insightId : String
  answer : String
  isLoading : Bool
deriving DecidableEq, Repr

/-- The component state: the four `useState` hooks of the `Insights`
component (`insights`, `isLoading`, `lastUpdated`, `aiAnswers`).
Timestamps are modelled as natural numbers. -/
structure PanelState where
  insights : List InsightData
  isLoading : Bool
  lastUpdated : Option Nat
  aiAnswers : List AIAnswer
deriving DecidableEq, Repr

/-- The initial hook values: `useState<InsightData[]>([])`,
`useState(true)`, `useState<Date | null>(null)`, `useState<AIAnswer[]>([])`. -/
def initialState : PanelState :=
  { insights := [], isLoading := true, lastUpdated := none, aiAnswers := [] }

/-- The synthetic fallback record installed by `loadInsights`'s `catch`
branch (`Insights.tsx` lines 37-46). Note that the source DOES give it an
`action` field, `'Try again later'`. -/
def fallbackInsight : InsightData :=
  { id := "fallback-1"
    type := .info
    title := "AI Temporarily Unavailable"
    message := "We\x27re working to restore AI insights. Please check back soon."
    action := some "Try again later" }

/-- `setIsLoading(true)` at the start of `loadInsights`. -/
def loadInsightsStart (s : PanelState) : PanelState :=
  { s with isLoading := true }

/-- The success path of `loadInsights`: `setInsights(newInsights)`,
`setLastUpdated(new Date())`, and the `finally` block's
`setIsLoading(false)`. `now` is the current time observed by `new Date()`. -/
def loadInsightsSuccess (s : PanelState) (newInsights : List InsightData)
    (now : Nat) : PanelState :=
  { s with insights := newInsights, lastUpdated := some now, isLoading := false }

/-- The failure (`catch`) path of `loadInsights`: installs the single
fallback record and, via `finally`, clears the loading flag. `lastUpdated`
is not touched on this path. -/
def loadInsightsFailure (s : PanelState) : PanelState :=
  { s with insights := [fallbackInsight], isLoading := false }

/-- JavaScript truthiness of `insight.action`: the guard
`if (!insight.action) return;` fires when the field is absent OR the empty
string (both falsy). The same condition gates rendering of the action
button (`insight.action && <button .../>`). -/
def hasAction (i : InsightData) : Bool :=
  match i.action with
  | none => false
  | some s => !s.isEmpty

/-- The synchronous part of `handleActionClick` (`Insights.tsx` 52-75): the
truthiness guard, the toggle-off branch (`find` then `filter`), or the
toggle-on branch (append a pending entry). Returns the new state together
with `some question` when a `generateInsightAnswer` call is issued with
that question string, `none` otherwise. -/
def handleActionClick (s : PanelState) (insight : InsightData) :
    PanelState × Option String :=
  if !hasAction insight then (s, none)
  else
    match s.aiAnswers.find? (fun a => a.insightId == insight.id) with
    | some _ =>
      ({ s with aiAnswers := s.aiAnswers.filter (fun a => !(a.insightId == insight.id)) },
       none)
    | none =>
      ({ s with aiAnswers :=
          s.aiAnswers ++ [{ insightId := insight.id, answer := "", isLoading := true }] },
       some (insight.title ++ ": " ++ insight.action.getD ""))

/-- The fixed apology string written by `handleActionClick`'s `catch`
handler. -/
def apologyMessage : String :=
  "Sorry, I was unable to generate a detailed answer. Please try again."

/-- The completion handler for a successful `generateInsightAnswer` call
(`Insights.tsx` 80-84): a functional update mapping over the current
answers, rewriting the entry whose `insightId` matches. -/
def applyAnswerSuccess (s : PanelState) (insightId : String)
    (answer : String) : PanelState :=
  { s with aiAnswers := s.aiAnswers.map (fun a =>
      if a.insightId == insightId then
        { a with answer := answer, isLoading := false }
      else a) }

/-- The completion handler for a failed `generateInsightAnswer` call
(`Insights.tsx` 85-99): same functional update, writing the fixed apology
string. The `catch` swallows the error, so the handler is a total state
transformer. -/
def applyAnswerFailure (s : PanelState) (insightId : String) : PanelState :=
  { s with aiAnswers := s.aiAnswers.map (fun a =>
      if a.insightId == insightId then
        { a with answer := apologyMessage, isLoading := false }
      else a) }

/-- The rendering lookup `aiAnswers.find((a) => a.insightId === insight.id)`:
the answer sub-panel for an insight is visible iff this is `some`. -/
def answerFor (s : PanelState) (insightId : String) : Option AIAnswer :=
  s.aiAnswers.find? (fun a => a.insightId == insightId)

/-- The insight cards rendered: placeholders while loading, otherwise the
current `insights` list in order (`insights.map (insight => ...)`). -/
def displayedInsights (s : PanelState) : List InsightData :=
  if s.isLoading then [] else s.insights

/-- At most one `AIAnswer` per `insightId` (the §3 invariant of the spec),
phrased as pairwise distinctness of the keys. -/
def atMostOnePerId (l : List AIAnswer) : Prop :=
  l.Pairwise (fun a b => a.insightId ≠ b.insightId)

instance (l : List AIAnswer) : Decidable (atMostOnePerId l) := by
  unfold atMostOnePerId
  infer_instance

/-! ## Page shell (`src/app/page.tsx`) and user resolution (`checkUser`) -/

/-- One `emailAddress` object of the identity provider's
`user.emailAddresses` array. -/
structure EmailAddressObj where
  emailAddress : String
deriving DecidableEq, Repr

/-- The identity-provider user object (`currentUser()` result), restricted
to the fields the repository reads. -/
structure ClerkUser where
  id : String
  firstName : String
  lastName : String
  imageUrl : String
  emailAddresses : List EmailAddressObj
deriving DecidableEq, Repr

/-- The internal database user record created/returned by `checkUser`. -/
structure DbUser where
  clerkUserId : String
  name : String
  imageUrl : String
  email : String
deriving DecidableEq, Repr

/-- A rendered React tree, restricted to what `HomePage` produces: plain
text, an HTML tag with children, or a mounted React component referred to
by name (`Guest`, `Insights`, ...). -/
inductive ReactNode where
  | text (s : String)
  | tag (name : String) (children : List ReactNode)
  | component (name : String)

/-- Whether a rendered tree mounts the component named `m` anywhere. -/
def containsComponent (m : String) : ReactNode → Bool
  | .text _ => false
  | .component n => n == m
  | .tag _ children => go children
where
  go : List ReactNode → Bool
    | [] => false
    | c :: cs => containsComponent m c || go cs

/-- `HomePage` from `src/app/page.tsx`: resolves the current user once; if
absent renders `<Guest />`, otherwise renders
`<div><h1 className="bg-red-400">Home Page</h1></div>`. -/
def HomePage (user : Option ClerkUser) : ReactNode :=
  match user with
  | none => .component "Guest"
  | some _ => .tag "div" [.tag "h1" [.text "Home Page"]]

/-- `checkUser` from the data-access module bundled in the source: returns
`none` when unauthenticated; returns the existing record when the database
lookup (`db.user.findUnique`, passed in as `dbLookup`) finds one; otherwise
creates a record reading `user.emailAddresses[0].emailAddress` with no
guard — on an empty `emailAddresses` array the index yields `undefined` and
the `.emailAddress` access throws, modelled as the `Except.error` branch. -/
def checkUser (user : Option ClerkUser) (dbLookup : Option DbUser) :
    Except String (Option DbUser) :=
  match user with
  | none => .ok none
  | some u =>
    match dbLookup with
    | some loggedInUser => .ok (some loggedInUser)
    | none =>
      match u.emailAddresses.get? 0 with
      | none => .error "TypeError: cannot read properties of undefined"
      | some e =>
        .ok (some { clerkUserId := u.id
                    name := u.firstName ++ " " ++ u.lastName
                    imageUrl := u.imageUrl
                    email := e.emailAddress })

/-! ## Demo records (concrete inputs used by witnesses and counterexamples,
taken from the spec's §8 scenario) -/

/-- The §8 scenario insight: a tip with an action label. -/
def demoInsight : InsightData :=
  { id := "1", type := .tip, title := "Save more"
    message := "Consider a monthly budget.", action := some "See how" }

/-- An insight with no action label. -/
def demoNoActionInsight : InsightData :=
  { id := "n1", type := .warning, title := "Overspending", message := "m" }

/-- A panel state holding two distinct resolved/pending answers. -/
def demoState : PanelState :=
  { insights := [demoInsight], isLoading := false, lastUpdated := some 0
    aiAnswers := [{ insightId := "1", answer := "x", isLoading := false },
                  { insightId := "2", answer := "", isLoading := true }] }

/-- An authenticated identity with one email address. -/
def demoClerkUser : ClerkUser :=
  { id := "user_1", firstName := "Ada", lastName := "Lovelace"
    imageUrl := "img", emailAddresses := [{ emailAddress := "ada@example.com" }] }

/-- An authenticated identity whose `emailAddresses` array is empty. -/
def demoNoEmailUser : ClerkUser :=
  { id := "user_2", firstName := "Bo", lastName := "Null"
    imageUrl := "img2", emailAddresses := [] }

/-! ## Helper lemmas -/

/-- No answer entry for `id` means every stored key differs from `id`. -/
lemma answerFor_eq_none_iff (s : PanelState) (id : String) :
    answerFor s id = none ↔ ∀ a ∈ s.aiAnswers, (a.insightId == id) = false := by
  unfold answerFor
  rw [List.find?_eq_none]
  simp

/-- The keyed functional update used by both completion handlers is the
identity on a list in which the key does not occur. -/
lemma map_update_of_absent (l : List AIAnswer) (id : String)
    (f : AIAnswer → AIAnswer)
    (h : ∀ a ∈ l, (a.insightId == id) = false) :
    l.map (fun a => if a.insightId == id then f a else a) = l := by
  have := List.map_congr_left (l := l)
    (f := fun a => if a.insightId == id then f a else a) (g := fun a => a)
    (fun a ha => by simp [h a ha])
  simpa using this

/-- Every element surviving `filter (fun a => !(a.insightId == id))` has a
key different from `id`. -/
lemma filter_removes_key (l : List AIAnswer) (id : String) :
    ∀ a ∈ l.filter (fun a => !(a.insightId == id)), (a.insightId == id) = false := by
  intro a ha
  have := (List.mem_filter.mp ha).2
  simpa using this

/-- `find?` misses when the predicate is everywhere false. -/
lemma find?_of_all_false (l : List AIAnswer) (p : AIAnswer → Bool)
    (h : ∀ a ∈ l, p a = false) : l.find? p = none :=
  List.find?_eq_none.mpr (fun a ha => by simp [h a ha])

/-- Reduction of `handleActionClick` on the toggle-on branch. -/
lemma handleActionClick_of_absent (s : PanelState) (insight : InsightData)
    (hact : hasAction insight = true)
    (habs : answerFor s insight.id = none) :
    handleActionClick s insight =
      ({ s with aiAnswers := s.aiAnswers ++
          [{ insightId := insight.id, answer := "", isLoading := true }] },
       some (insight.title ++ ": " ++ insight.action.getD "")) := by
  unfold handleActionClick
  unfold answerFor at habs
  rw [hact, habs]
  rfl

/-- Reduction of `handleActionClick` on the toggle-off branch. -/
lemma handleActionClick_of_present (s : PanelState) (insight : InsightData)
    (e : AIAnswer) (hact : hasAction insight = true)
    (hpres : answerFor s insight.id = some e) :
    handleActionClick s insight =
      ({ s with aiAnswers := s.aiAnswers.filter (fun a => !(a.insightId == insight.id)) },
       none) := by
  unfold handleActionClick
  unfold answerFor at hpres
  rw [hact, hpres]
  rfl

/-- After a toggle-off, no entry for the clicked id remains visible. -/
lemma answerFor_after_toggleOff (s : PanelState) (insight : InsightData)
    (e : AIAnswer) (hact : hasAction insight = true)
    (hpres : answerFor s insight.id = some e) :
    (handleActionClick s insight).2 = none ∧
    answerFor (handleActionClick s insight).1 insight.id = none := by
  rw [handleActionClick_of_present s insight e hact hpres]
  refine ⟨rfl, ?_⟩
  exact find?_of_all_false _ _ (filter_removes_key s.aiAnswers insight.id)

/-- A stale keyed update (key absent) leaves the success handler's state
unchanged. -/
lemma applyAnswerSuccess_absent (s : PanelState) (id ans : String)
    (h : answerFor s id = none) : applyAnswerSuccess s id ans = s := by
  show { s with aiAnswers := _ } = s
  rw [map_update_of_absent s.aiAnswers id _ ((answerFor_eq_none_iff s id).mp h)]

/-- A stale keyed update (key absent) leaves the failure handler's state
unchanged. -/
lemma applyAnswerFailure_absent (s : PanelState) (id : String)
    (h : answerFor s id = none) : applyAnswerFailure s id = s := by
  show { s with aiAnswers := _ } = s
  rw [map_update_of_absent s.aiAnswers id _ ((answerFor_eq_none_iff s id).mp h)]

/-- Reduction of `handleActionClick` when the truthiness guard fires. -/
lemma handleActionClick_of_no_action (s : PanelState) (insight : InsightData)
    (h : hasAction insight = false) :
    handleActionClick s insight = (s, none) := by
  unfold handleActionClick
  rw [h]
  rfl

/-- A single appended entry whose key matches is what `find?` returns when
the key is absent from the prefix. -/
lemma find?_append_single (l : List AIAnswer) (id : String) (e : AIAnswer)
    (hl : ∀ a ∈ l, (a.insightId == id) = false)
    (he : (e.insightId == id) = true) :
    (l ++ [e]).find? (fun a => a.insightId == id) = some e := by
  rw [List.find?_append, find?_of_all_false l _ hl]
  show List.find? (fun a => a.insightId == id) [e] = some e
  exact List.find?_cons_of_pos _ he

/-- The keyed functional update of the completion handlers preserves the
at-most-one-entry-per-id invariant (keys are untouched). -/
lemma atMostOnePerId_map_update (l : List AIAnswer) (id x : String)
    (h : atMostOnePerId l) :
    atMostOnePerId (l.map (fun a =>
      if a.insightId == id then { a with answer := x, isLoading := false }
      else a)) := by
  unfold atMostOnePerId at h ⊢
  rw [List.pairwise_map]
  refine h.imp ?_
  intro a b hne
  by_cases ha : (a.insightId == id) = true <;>
    by_cases hb : (b.insightId == id) = true <;>
      simp [ha, hb, hne]

/-! ## Claims -/

/-- C1 (counterexample): the claim says the fallback record carries no
action label, so that no actionable control is rendered and it cannot
trigger an answer request. In the source the fallback record's `action`
field is `'Try again later'`: the control IS rendered (`hasAction` holds)
and clicking it issues a generation call with question
`"AI Temporarily Unavailable: Try again later"`. -/
theorem C1_fallback_counterexample :
    fallbackInsight.action = some "Try again later" ∧
    hasAction fallbackInsight = true ∧
    (handleActionClick (loadInsightsFailure initialState) fallbackInsight).2
      = some "AI Temporarily Unavailable: Try again later" :=
  ⟨rfl, rfl, rfl⟩

/-- C1 (amended): on fetch failure the insight sequence is replaced with
exactly one synthetic record with id `fallback-1`, category `info`, the
fixed unavailability title/message, AND action label `Try again later`
(so an actionable control is rendered); `lastUpdated` is not touched on
this path (it stays `none` if this was the first fetch) and the list axis
still reaches Loaded (`isLoading = false`). -/
theorem C1_failure_fallback (s : PanelState) :
    (loadInsightsFailure s).insights = [fallbackInsight] ∧
    fallbackInsight.id = "fallback-1" ∧
    fallbackInsight.type = .info ∧
    fallbackInsight.title = "AI Temporarily Unavailable" ∧
    fallbackInsight.message
      = "We\x27re working to restore AI insights. Please check back soon." ∧
    fallbackInsight.action = some "Try again later" ∧
    hasAction fallbackInsight = true ∧
    (loadInsightsFailure s).lastUpdated = s.lastUpdated ∧
    (loadInsightsFailure s).isLoading = false :=
  ⟨rfl, rfl, rfl, rfl, rfl, rfl, rfl, rfl, rfl⟩

/-- C5: a successful fetch of `newInsights` replaces the sequence wholesale
in the returned order, sets `lastUpdated` to the observed current time
(hence non-null), clears the loading flag, and the panel then displays
exactly those records. -/
theorem C5_load_success (s : PanelState) (newInsights : List InsightData)
    (now : Nat) :
    (loadInsightsSuccess s newInsights now).insights = newInsights ∧
    (loadInsightsSuccess s newInsights now).lastUpdated = some now ∧
    (loadInsightsSuccess s newInsights now).lastUpdated ≠ none ∧
    (loadInsightsSuccess s newInsights now).isLoading = false ∧
    displayedInsights (loadInsightsSuccess s newInsights now) = newInsights := by
  refine ⟨rfl, rfl, by simp [loadInsightsSuccess], rfl, rfl⟩

/-- C7: the failure completion handler rewrites exactly the entries whose
key matches — pointwise, the entry at any position is the original when its
id differs, and the original with `answer = apologyMessage`,
`isLoading = false` when it matches; the list length and all other state
fields are untouched. The handler is a total state transformer (the source
`catch` swallows the error), so no error propagates out. -/
theorem C7_answer_failure (s : PanelState) (insightId : String) (i : Nat) :
    (applyAnswerFailure s insightId).aiAnswers.length = s.aiAnswers.length ∧
    (applyAnswerFailure s insightId).insights = s.insights ∧
    (applyAnswerFailure s insightId).isLoading = s.isLoading ∧
    (applyAnswerFailure s insightId).lastUpdated = s.lastUpdated ∧
    (applyAnswerFailure s insightId).aiAnswers[i]? =
      (s.aiAnswers[i]?).map (fun a =>
        if a.insightId == insightId then
          { a with answer := apologyMessage, isLoading := false }
        else a) := by
  refine ⟨by simp [applyAnswerFailure], rfl, rfl, rfl, ?_⟩
  simp [applyAnswerFailure, List.getElem?_map]

/-- C8: clicking an insight whose action label is absent (or empty, the
JavaScript-falsy case) is a no-op: the state is returned unchanged and no
generation call is issued. -/
theorem C8_no_action_noop (s : PanelState) (insight : InsightData)
    (h : hasAction insight = false) :
    handleActionClick s insight = (s, none) :=
  handleActionClick_of_no_action s insight h

/-- Witness for C8 at the concrete action-less insight. -/
theorem C8_no_action_noop_witness :
    hasAction demoNoActionInsight = false ∧
    handleActionClick demoState demoNoActionInsight = (demoState, none) :=
  ⟨rfl, C8_no_action_noop demoState demoNoActionInsight rfl⟩

/-- C9 (counterexample): the claim says an authenticated render mounts the
dashboard which mounts the Insights panel. In `src/app/page.tsx` the
authenticated branch renders only `<div><h1>Home Page</h1></div>`; no
`Insights` component appears anywhere in the produced tree. -/
theorem C9_page_shell_counterexample :
    HomePage (some demoClerkUser)
      = .tag "div" [.tag "h1" [.text "Home Page"]] ∧
    containsComponent "Insights" (HomePage (some demoClerkUser)) = false :=
  ⟨rfl, rfl⟩

/-- C9 (amended): the page shell resolves the user once per render; with no
authenticated user it renders the guest view, and with a user present it
renders a placeholder heading (`Home Page`) that mounts neither the guest
view nor any dashboard/Insights panel. -/
theorem C9_page_shell (u : ClerkUser) :
    HomePage none = .component "Guest" ∧
    HomePage (some u) = .tag "div" [.tag "h1" [.text "Home Page"]] ∧
    containsComponent "Insights" (HomePage (some u)) = false ∧
    containsComponent "Guest" (HomePage (some u)) = false :=
  ⟨rfl, rfl, rfl, rfl⟩

/-- C10: `checkUser` on a first-seen authenticated identity (database
lookup misses) reads `emailAddresses[0].emailAddress` with no guard; with
an empty `emailAddresses` array the access faults (the error branch is
reachable), so creation assumes at least one address. -/
theorem C10_checkUser_empty_emails (u : ClerkUser)
    (h : u.emailAddresses = []) :
    checkUser (some u) none
      = .error "TypeError: cannot read properties of undefined" := by
  have hred : checkUser (some u) none =
      (match u.emailAddresses.get? 0 with
       | none => Except.error "TypeError: cannot read properties of undefined"
       | some e =>
         Except.ok (some { clerkUserId := u.id
                           name := u.firstName ++ " " ++ u.lastName
                           imageUrl := u.imageUrl
                           email := e.emailAddress })) := rfl
  rw [hred, h]
  rfl

/-- Witness for C10 at the concrete identity with no email addresses. -/
theorem C10_checkUser_empty_emails_witness :
    demoNoEmailUser.emailAddresses = [] ∧
    checkUser (some demoNoEmailUser) none
      = .error "TypeError: cannot read properties of undefined" :=
  ⟨rfl, C10_checkUser_empty_emails demoNoEmailUser rfl⟩

/-- C2: staleness law. If an answer is requested (creating a pending entry)
and then toggled off before the generation call resolves, neither the
success nor the failure completion handler recreates or repopulates an
entry for that id — the keyed update is a no-op on a state from which the
id is absent. -/
theorem C2_stale_completion_noop (s : PanelState) (insight : InsightData)
    (ans : String)
    (hact : hasAction insight = true)
    (habs : answerFor s insight.id = none) :
    answerFor (handleActionClick (handleActionClick s insight).1 insight).1
        insight.id = none ∧
    applyAnswerSuccess (handleActionClick (handleActionClick s insight).1 insight).1
        insight.id ans
      = (handleActionClick (handleActionClick s insight).1 insight).1 ∧
    applyAnswerFailure (handleActionClick (handleActionClick s insight).1 insight).1
        insight.id
      = (handleActionClick (handleActionClick s insight).1 insight).1 := by
  have hall := (answerFor_eq_none_iff s insight.id).mp habs
  have h1 := handleActionClick_of_absent s insight hact habs
  have hfind1 : answerFor (handleActionClick s insight).1 insight.id
      = some { insightId := insight.id, answer := "", isLoading := true } := by
    rw [h1]
    exact find?_append_single s.aiAnswers insight.id _ hall (beq_self_eq_true _)
  have h2 := answerFor_after_toggleOff (handleActionClick s insight).1 insight _
    hact hfind1
  exact ⟨h2.2, applyAnswerSuccess_absent _ _ _ h2.2,
    applyAnswerFailure_absent _ _ h2.2⟩

/-- Witness for C2 at the spec's §8 scenario insight, starting from the
mount state. -/
theorem C2_stale_completion_noop_witness :
    hasAction demoInsight = true ∧
    answerFor initialState demoInsight.id = none ∧
    (answerFor (handleActionClick (handleActionClick initialState demoInsight).1
        demoInsight).1 demoInsight.id = none ∧
     applyAnswerSuccess (handleActionClick (handleActionClick initialState
        demoInsight).1 demoInsight).1 demoInsight.id "Try the 50/30/20 rule."
       = (handleActionClick (handleActionClick initialState demoInsight).1
          demoInsight).1 ∧
     applyAnswerFailure (handleActionClick (handleActionClick initialState
        demoInsight).1 demoInsight).1 demoInsight.id
       = (handleActionClick (handleActionClick initialState demoInsight).1
          demoInsight).1) :=
  ⟨rfl, rfl,
    C2_stale_completion_noop initialState demoInsight "Try the 50/30/20 rule."
      rfl rfl⟩

/-- C3: toggle round-trip. Starting with no entry for an insight with a
non-empty action label, the first click inserts a pending entry; a second
click — whether issued before the generation completed or after the
success handler ran — issues no call and leaves no entry for that id. -/
theorem C3_toggle_roundtrip (s : PanelState) (insight : InsightData)
    (ans : String)
    (hact : hasAction insight = true)
    (habs : answerFor s insight.id = none) :
    answerFor (handleActionClick s insight).1 insight.id
      = some { insightId := insight.id, answer := "", isLoading := true } ∧
    (handleActionClick (handleActionClick s insight).1 insight).2 = none ∧
    answerFor (handleActionClick (handleActionClick s insight).1 insight).1
        insight.id = none ∧
    answerFor (handleActionClick
        (applyAnswerSuccess (handleActionClick s insight).1 insight.id ans)
        insight).1 insight.id = none := by
  have hall := (answerFor_eq_none_iff s insight.id).mp habs
  have h1 := handleActionClick_of_absent s insight hact habs
  have hfind1 : answerFor (handleActionClick s insight).1 insight.id
      = some { insightId := insight.id, answer := "", isLoading := true } := by
    rw [h1]
    exact find?_append_single s.aiAnswers insight.id _ hall (beq_self_eq_true _)
  have h2 := answerFor_after_toggleOff (handleActionClick s insight).1 insight _
    hact hfind1
  have hmap : (applyAnswerSuccess (handleActionClick s insight).1 insight.id
        ans).aiAnswers
      = s.aiAnswers ++ [{ insightId := insight.id, answer := ans, isLoading := false }] := by
    rw [h1]
    show (s.aiAnswers ++ [_]).map _ = _
    rw [List.map_append, map_update_of_absent s.aiAnswers insight.id _ hall]
    simp
  have hfind4 : answerFor (applyAnswerSuccess (handleActionClick s insight).1
        insight.id ans) insight.id
      = some { insightId := insight.id, answer := ans, isLoading := false } := by
    unfold answerFor
    rw [hmap]
    exact find?_append_single s.aiAnswers insight.id _ hall (beq_self_eq_true _)
  have h4 := answerFor_after_toggleOff _ insight _ hact hfind4
  exact ⟨hfind1, h2.1, h2.2, h4.2⟩

/-- Witness for C3 at the spec's §8 scenario insight, starting from the
mount state. -/
theorem C3_toggle_roundtrip_witness :
    hasAction demoInsight = true ∧
    answerFor initialState demoInsight.id = none ∧
    (answerFor (handleActionClick initialState demoInsight).1 demoInsight.id
      = some { insightId := demoInsight.id, answer := "", isLoading := true } ∧
     (handleActionClick (handleActionClick initialState demoInsight).1
        demoInsight).2 = none ∧
     answerFor (handleActionClick (handleActionClick initialState demoInsight).1
        demoInsight).1 demoInsight.id = none ∧
     answerFor (handleActionClick
        (applyAnswerSuccess (handleActionClick initialState demoInsight).1
          demoInsight.id "Try the 50/30/20 rule.") demoInsight).1
        demoInsight.id = none) :=
  ⟨rfl, rfl,
    C3_toggle_roundtrip initialState demoInsight "Try the 50/30/20 rule."
      rfl rfl⟩

/-- C6: toggle-on postcondition. With a non-empty action label and no
existing entry, a click appends the pending entry `⟨id, "", true⟩`, issues
the generation call with the question `"<title>: <actionLabel>"`, and the
success completion (the entry still being present) rewrites it to the
returned text with `pending = false`, leaving every other entry as it
was. -/
theorem C6_toggle_on (s : PanelState) (insight : InsightData)
    (label ans : String)
    (hlab : insight.action = some label) (hne : label ≠ "")
    (habs : answerFor s insight.id = none) :
    (handleActionClick s insight).2 = some (insight.title ++ ": " ++ label) ∧
    (handleActionClick s insight).1.aiAnswers
      = s.aiAnswers ++ [{ insightId := insight.id, answer := "", isLoading := true }] ∧
    (applyAnswerSuccess (handleActionClick s insight).1 insight.id
        ans).aiAnswers
      = s.aiAnswers ++ [{ insightId := insight.id, answer := ans, isLoading := false }] := by
  have hact : hasAction insight = true := by
    have hred : hasAction insight = !label.isEmpty := by
      unfold hasAction
      rw [hlab]
    rw [hred]
    cases hie : label.isEmpty with
    | false => rfl
    | true => exact absurd ((String.isEmpty_iff label).mp hie) hne
  have hall := (answerFor_eq_none_iff s insight.id).mp habs
  have h1 := handleActionClick_of_absent s insight hact habs
  refine ⟨?_, ?_, ?_⟩
  · rw [h1]
    show some (insight.title ++ ": " ++ insight.action.getD "") = _
    rw [hlab]
    rfl
  · rw [h1]
  · rw [h1]
    show (s.aiAnswers ++ [_]).map _ = _
    rw [List.map_append, map_update_of_absent s.aiAnswers insight.id _ hall]
    simp

/-- Witness for C6 at the spec's §8 scenario insight. -/
theorem C6_toggle_on_witness :
    demoInsight.action = some "See how" ∧
    "See how" ≠ "" ∧
    answerFor initialState demoInsight.id = none ∧
    ((handleActionClick initialState demoInsight).2
      = some (demoInsight.title ++ ": " ++ "See how") ∧
     (handleActionClick initialState demoInsight).1.aiAnswers
      = initialState.aiAnswers ++ [{ insightId := demoInsight.id, answer := "", isLoading := true }] ∧
     (applyAnswerSuccess (handleActionClick initialState demoInsight).1
        demoInsight.id "Try the 50/30/20 rule.").aiAnswers
      = initialState.aiAnswers ++ [{ insightId := demoInsight.id, answer := "Try the 50/30/20 rule.", isLoading := false }]) :=
  ⟨rfl, by decide, rfl,
    C6_toggle_on initialState demoInsight "See how" "Try the 50/30/20 rule."
      rfl (by decide) rfl⟩

/-- C4: invariant preservation. A state whose answer list holds at most one
entry per insight id keeps that property under every operation: the three
load transitions, a click (either toggle branch or the guard no-op), and
both completion handlers. -/
theorem C4_at_most_one_entry_per_id (s : PanelState) (insight : InsightData)
    (newInsights : List InsightData) (now : Nat) (id ans : String)
    (h : atMostOnePerId s.aiAnswers) :
    atMostOnePerId (loadInsightsStart s).aiAnswers ∧
    atMostOnePerId (loadInsightsSuccess s newInsights now).aiAnswers ∧
    atMostOnePerId (loadInsightsFailure s).aiAnswers ∧
    atMostOnePerId (handleActionClick s insight).1.aiAnswers ∧
    atMostOnePerId (applyAnswerSuccess s id ans).aiAnswers ∧
    atMostOnePerId (applyAnswerFailure s id).aiAnswers := by
  refine ⟨h, h, h, ?_, atMostOnePerId_map_update s.aiAnswers id ans h,
    atMostOnePerId_map_update s.aiAnswers id apologyMessage h⟩
  cases hact : hasAction insight with
  | false =>
    rw [handleActionClick_of_no_action s insight hact]
    exact h
  | true =>
    cases hfind : s.aiAnswers.find? (fun a => a.insightId == insight.id) with
    | some e =>
      rw [handleActionClick_of_present s insight e hact hfind]
      exact List.Pairwise.filter _ h
    | none =>
      rw [handleActionClick_of_absent s insight hact hfind]
      unfold atMostOnePerId
      rw [List.pairwise_append]
      refine ⟨h, List.pairwise_singleton _ _, ?_⟩
      intro a ha b hb
      have hb2 : b = { insightId := insight.id, answer := "", isLoading := true } := by
        simpa using hb
      subst hb2
      have hne := List.find?_eq_none.mp hfind a ha
      simpa using hne

/-- Witness for C4 at a two-entry state with distinct ids. -/
theorem C4_at_most_one_entry_per_id_witness :
    atMostOnePerId demoState.aiAnswers ∧
    (atMostOnePerId (loadInsightsStart demoState).aiAnswers ∧
     atMostOnePerId (loadInsightsSuccess demoState [demoInsight] 5).aiAnswers ∧
     atMostOnePerId (loadInsightsFailure demoState).aiAnswers ∧
     atMostOnePerId (handleActionClick demoState demoInsight).1.aiAnswers ∧
     atMostOnePerId (applyAnswerSuccess demoState "2" "done").aiAnswers ∧
     atMostOnePerId (applyAnswerFailure demoState "2").aiAnswers) :=
  ⟨by decide,
    C4_at_most_one_entry_per_id demoState demoInsight [demoInsight] 5 "2" "done"
      (by decide)⟩
